import Mathlib

/-!
Verification development for the disc-golf flight simulator front-end
(`disc_golf_simulator.py`).

The in-scope logic is the throw-parameter-to-trajectory pipeline of `main`:
module-level default constants, the six slider definitions, the fixed
disc-name catalog, construction of the release position, the call into the
external physics collaborator (`DiscGolfDisc.shoot` / `post_process`), the
axis remap `x_new, y_new = -1 * y, x`, and the four summary metrics
`min(x_new), max(x_new), max(z), max(y_new)`.

Coordinates are modelled as rationals.  The external physics library is
modelled as an explicit collaborator record whose operations may fail
(`Except`), matching the spec's treatment of it as a black box whose
exceptions propagate unmodified.
-/

namespace DiscSim

/-- A 3-d point or vector, one sample of the trajectory arrays. -/
structure Point3 where
  x : ℚ
  y : ℚ
  z : ℚ
deriving DecidableEq

/-- The trajectory returned by `shoot`: a position series and a velocity
series (`shot.position`, `shot.velocity` in the source). -/
structure Traj where
  position : List Point3
  velocity : List Point3
deriving DecidableEq

/-- The seven auxiliary series returned by `post_process`
(`arc, alphas, betas, lifts, drags, moms, rolls`). -/
structure PostData where
  arc : List ℚ
  alphas : List ℚ
  betas : List ℚ
  lifts : List ℚ
  drags : List ℚ
  moms : List ℚ
  rolls : List ℚ
deriving DecidableEq

/-- The four derived scalars of the summary table. -/
structure FlightSummary where
  drift_left : ℚ
  drift_right : ℚ
  max_height : ℚ
  distance : ℚ
deriving DecidableEq

/-- Module-level default for the throwing velocity slider (`default_U = 24.2`). -/
def default_U : ℚ := 24.2

/-- Module-level default for the spin slider (`default_omega = 116.8`). -/
def default_omega : ℚ := 116.8

/-- Module-level default for the release-height slider (`default_z0 = 1.3`). -/
def default_z0 : ℚ := 1.3

/-- Module-level default for the pitch slider (`default_pitch = 15.5`). -/
def default_pitch : ℚ := 15.5

/-- Module-level default for the nose slider (`default_nose = 0.0`). -/
def default_nose : ℚ := 0.0

/-- Module-level default for the roll slider (`default_roll = 14.7`). -/
def default_roll : ℚ := 14.7

/-- One slider definition: fixed closed range, initial value, step. -/
structure SliderSpec where
  min_value : ℚ
  max_value : ℚ
  value : ℚ
  step : ℚ
deriving DecidableEq

/-- Nose Angle slider: `min_value=-45.0, max_value=90.0, value=default_nose, step=0.1`. -/
def noseSlider : SliderSpec :=
  { min_value := -45, max_value := 90, value := default_nose, step := 0.1 }

/-- Roll Angle slider: `min_value=-90.0, max_value=90.0, value=default_roll, step=0.1`. -/
def rollSlider : SliderSpec :=
  { min_value := -90, max_value := 90, value := default_roll, step := 0.1 }

/-- Throwing Velocity slider: `min_value=0.0, max_value=40.0, value=default_U, step=0.1`. -/
def USlider : SliderSpec :=
  { min_value := 0, max_value := 40, value := default_U, step := 0.1 }

/-- Omega slider: `min_value=0.0, max_value=200.0, value=default_omega, step=0.1`. -/
def omegaSlider : SliderSpec :=
  { min_value := 0, max_value := 200, value := default_omega, step := 0.1 }

/-- Release Height slider: `min_value=0.0, max_value=2.0, value=default_z0, step=0.1`. -/
def z0Slider : SliderSpec :=
  { min_value := 0, max_value := 2, value := default_z0, step := 0.1 }

/-- Pitch Angle slider: `min_value=0.0, max_value=90.0, value=default_pitch, step=0.1`. -/
def pitchSlider : SliderSpec :=
  { min_value := 0, max_value := 90, value := default_pitch, step := 0.1 }

/-- Modelled from the spec: the Streamlit slider widget itself is an external
collaborator not under `src/`; per the spec, out-of-range values "are rejected
or clamped by the input layer", so reading a slider yields the user's value
clamped into the declared closed range `[min_value, max_value]`. -/
def sliderRead (s : SliderSpec) (u : ℚ) : ℚ :=
  max s.min_value (min s.max_value u)

/-- The fixed display-name-to-identifier disc catalog (`disc_names`). -/
def disc_names : List (String × String) :=
  [("Innova Wraith", "dd2"),
   ("Innova Firebird", "cd1"),
   ("Innova Roadrunner", "cd5"),
   ("Innova Fairway Driver", "fd2")]

/-- The internal disc-model identifiers of the catalog. -/
def catalogIds : List String := disc_names.map Prod.snd

/-- The six collected scalar parameters plus the selected disc identifier.
Field names follow the source variables (`U, omega, z0, pitch, nose, roll`). -/
structure ThrowParameters where
  U : ℚ
  omega : ℚ
  z0 : ℚ
  pitch : ℚ
  nose : ℚ
  roll : ℚ
  disc_name : String
deriving DecidableEq

/-- Assemble one `ThrowParameters` record from raw slider inputs, each read
through its slider's range constraint. -/
def collectParams (uNose uRoll uU uOmega uZ0 uPitch : ℚ) (disc : String) :
    ThrowParameters :=
  { U := sliderRead USlider uU,
    omega := sliderRead omegaSlider uOmega,
    z0 := sliderRead z0Slider uZ0,
    pitch := sliderRead pitchSlider uPitch,
    nose := sliderRead noseSlider uNose,
    roll := sliderRead rollSlider uRoll,
    disc_name := disc }

/-- Each collected field lies in its declared closed range. -/
def InDeclaredRanges (p : ThrowParameters) : Prop :=
  0 ≤ p.U ∧ p.U ≤ 40 ∧
  0 ≤ p.omega ∧ p.omega ≤ 200 ∧
  0 ≤ p.z0 ∧ p.z0 ≤ 2 ∧
  0 ≤ p.pitch ∧ p.pitch ≤ 90 ∧
  -45 ≤ p.nose ∧ p.nose ≤ 90 ∧
  -90 ≤ p.roll ∧ p.roll ≤ 90

/-- The argument tuple passed to the physics collaborator's `shoot`
operation, keyed by the selected disc identifier (`DiscGolfDisc(disc_name)`). -/
structure ShootArgs where
  speed : ℚ
  omega : ℚ
  pitch : ℚ
  position : Point3
  nose_angle : ℚ
  roll_angle : ℚ
  disc_name : String
deriving DecidableEq

/-- The exact arguments `main` hands to `shoot`: the release position is
`np.array((0, 0, z0))` and every other argument is the collected slider
value, unaltered (`shot = disc_dict.shoot(speed=U, omega=omega, pitch=pitch,
position=pos, nose_angle=nose, roll_angle=roll)`). -/
def shootArgs (p : ThrowParameters) : ShootArgs :=
  { speed := p.U,
    omega := p.omega,
    pitch := p.pitch,
    position := { x := 0, y := 0, z := p.z0 },
    nose_angle := p.nose,
    roll_angle := p.roll,
    disc_name := p.disc_name }

/-- The external physics collaborator (shotshaper's `DiscGolfDisc`): `shoot`
produces a trajectory, `post_process` the auxiliary series; either may fail,
and this component does not interpret or handle those failures. -/
structure Physics where
  shoot : ShootArgs → Except String Traj
  post_process : Traj → ℚ → Except String PostData

/-- The axis remap of line 102, as a map on one sample point:
`x_new, y_new = -1 * y, x`, with the height `z` left unchanged. -/
def remap (p : Point3) : Point3 :=
  { x := -1 * p.y, y := p.x, z := p.z }

/-- The remapped lateral series `x_new = -1 * y`. -/
def x_new (position : List Point3) : List ℚ :=
  position.map fun p => (remap p).x

/-- The remapped forward series `y_new = x`. -/
def y_new (position : List Point3) : List ℚ :=
  position.map fun p => (remap p).y

/-- The original height series `z`. -/
def z_of (position : List Point3) : List ℚ :=
  position.map fun p => p.z

/-- Python's `min` over a sequence of numbers: `none` on the empty sequence
(where Python raises `ValueError`), otherwise the least element. -/
def pyMin : List ℚ → Option ℚ
  | [] => none
  | a :: l => some (l.foldl min a)

/-- Python's `max` over a sequence of numbers: `none` on the empty sequence
(where Python raises `ValueError`), otherwise the greatest element. -/
def pyMax : List ℚ → Option ℚ
  | [] => none
  | a :: l => some (l.foldl max a)

/-- The four summary scalars of the markdown table, computed from one
position series: `min(x_new), max(x_new), max(z), max(y_new)`.  `none` when
any of the reductions is over an empty series. -/
def flightSummary (position : List Point3) : Option FlightSummary :=
  (pyMin (x_new position)).bind fun dl =>
  (pyMax (x_new position)).bind fun dr =>
  (pyMax (z_of position)).bind fun mh =>
  (pyMax (y_new position)).map fun dist =>
  { drift_left := dl, drift_right := dr, max_height := mh, distance := dist }

/-- The error Python raises when `min`/`max` is applied to an empty series. -/
def emptySampleMsg : String := "ValueError: min() arg is an empty sequence"

/-- The Summarizer pipeline of `main`: build the shoot arguments, invoke the
collaborator's `shoot`, reduce the sample to the summary table, invoke
`post_process`, and return all three.  Collaborator failures and the
empty-sample failure propagate; there is no retry and no substitution. -/
def simulate (ph : Physics) (p : ThrowParameters) :
    Except String (Traj × FlightSummary × PostData) :=
  match ph.shoot (shootArgs p) with
  | Except.error e => Except.error e
  | Except.ok shot =>
    match flightSummary shot.position with
    | none => Except.error emptySampleMsg
    | some summary =>
      match ph.post_process shot p.omega with
      | Except.error e => Except.error e
      | Except.ok pp => Except.ok (shot, summary, pp)

/-- The parameters assembled when every slider sits at its default. -/
def defaultParams : ThrowParameters :=
  { U := default_U, omega := default_omega, z0 := default_z0,
    pitch := default_pitch, nose := default_nose, roll := default_roll,
    disc_name := "dd2" }

/-! ### Fold lemmas for the `min`/`max` reductions -/

lemma le_foldl_max (l : List ℚ) (a : ℚ) : a ≤ l.foldl max a := by
  induction l generalizing a with
  | nil => exact le_refl a
  | cons b l ih =>
    calc a ≤ max a b := le_max_left a b
    _ ≤ (b :: l).foldl max a := ih (max a b)

lemma foldl_min_le (l : List ℚ) (a : ℚ) : l.foldl min a ≤ a := by
  induction l generalizing a with
  | nil => exact le_refl a
  | cons b l ih =>
    calc (b :: l).foldl min a = l.foldl min (min a b) := rfl
    _ ≤ min a b := ih (min a b)
    _ ≤ a := min_le_left a b

lemma le_foldl_max_of_mem {b : ℚ} {l : List ℚ} (a : ℚ) (hb : b ∈ l) :
    b ≤ l.foldl max a := by
  induction l generalizing a with
  | nil => cases hb
  | cons c l ih =>
    rcases List.mem_cons.mp hb with h | h
    · subst h
      calc b ≤ max a b := le_max_right a b
      _ ≤ l.foldl max (max a b) := le_foldl_max l (max a b)
    · exact ih (max a c) h

lemma foldl_min_le_of_mem {b : ℚ} {l : List ℚ} (a : ℚ) (hb : b ∈ l) :
    l.foldl min a ≤ b := by
  induction l generalizing a with
  | nil => cases hb
  | cons c l ih =>
    rcases List.mem_cons.mp hb with h | h
    · subst h
      calc l.foldl min (min a b) ≤ min a b := foldl_min_le l (min a b)
      _ ≤ b := min_le_right a b
    · exact ih (min a c) h

lemma foldl_max_mem (l : List ℚ) (a : ℚ) : l.foldl max a ∈ a :: l := by
  induction l generalizing a with
  | nil => exact List.mem_singleton.mpr rfl
  | cons b l ih =>
    have h := ih (max a b)
    rcases List.mem_cons.mp h with h | h
    · rcases max_choice a b with hc | hc
      · exact List.mem_cons.mpr (Or.inl (h.trans hc))
      · exact List.mem_cons.mpr (Or.inr (List.mem_cons.mpr (Or.inl (h.trans hc))))
    · exact List.mem_cons.mpr (Or.inr (List.mem_cons.mpr (Or.inr h)))

lemma foldl_min_mem (l : List ℚ) (a : ℚ) : l.foldl min a ∈ a :: l := by
  induction l generalizing a with
  | nil => exact List.mem_singleton.mpr rfl
  | cons b l ih =>
    have h := ih (min a b)
    rcases List.mem_cons.mp h with h | h
    · rcases min_choice a b with hc | hc
      · exact List.mem_cons.mpr (Or.inl (h.trans hc))
      · exact List.mem_cons.mpr (Or.inr (List.mem_cons.mpr (Or.inl (h.trans hc))))
    · exact List.mem_cons.mpr (Or.inr (List.mem_cons.mpr (Or.inr h)))

lemma pyMax_spec {l : List ℚ} (h : l ≠ []) :
    ∃ m, pyMax l = some m ∧ m ∈ l ∧ ∀ v ∈ l, v ≤ m := by
  cases l with
  | nil => exact absurd rfl h
  | cons a l =>
    refine ⟨l.foldl max a, rfl, foldl_max_mem l a, ?_⟩
    intro v hv
    rcases List.mem_cons.mp hv with hv | hv
    · exact hv ▸ le_foldl_max l a
    · exact le_foldl_max_of_mem a hv

lemma pyMin_spec {l : List ℚ} (h : l ≠ []) :
    ∃ m, pyMin l = some m ∧ m ∈ l ∧ ∀ v ∈ l, m ≤ v := by
  cases l with
  | nil => exact absurd rfl h
  | cons a l =>
    refine ⟨l.foldl min a, rfl, foldl_min_mem l a, ?_⟩
    intro v hv
    rcases List.mem_cons.mp hv with hv | hv
    · exact hv ▸ foldl_min_le l a
    · exact foldl_min_le_of_mem a hv

/-- Characterization of `flightSummary` on a non-empty position series: it
succeeds, and each field is the exact extremum the table formula names. -/
lemma flightSummary_spec {pos : List Point3} (h : pos ≠ []) :
    ∃ s, flightSummary pos = some s ∧
      s.drift_left ∈ x_new pos ∧ (∀ v ∈ x_new pos, s.drift_left ≤ v) ∧
      s.drift_right ∈ x_new pos ∧ (∀ v ∈ x_new pos, v ≤ s.drift_right) ∧
      s.max_height ∈ z_of pos ∧ (∀ v ∈ z_of pos, v ≤ s.max_height) ∧
      s.distance ∈ y_new pos ∧ (∀ v ∈ y_new pos, v ≤ s.distance) := by
  have hx : x_new pos ≠ [] := by
    simpa [x_new] using h
  have hy : y_new pos ≠ [] := by
    simpa [y_new] using h
  have hz : z_of pos ≠ [] := by
    simpa [z_of] using h
  obtain ⟨dl, hdl, hdlm, hdlb⟩ := pyMin_spec hx
  obtain ⟨dr, hdr, hdrm, hdrb⟩ := pyMax_spec hx
  obtain ⟨mh, hmh, hmhm, hmhb⟩ := pyMax_spec hz
  obtain ⟨dist, hdist, hdistm, hdistb⟩ := pyMax_spec hy
  refine ⟨{ drift_left := dl, drift_right := dr, max_height := mh,
            distance := dist }, ?_, hdlm, hdlb, hdrm, hdrb, hmhm, hmhb,
          hdistm, hdistb⟩
  simp [flightSummary, hdl, hdr, hmh, hdist]

/-! ### Concrete collaborator instances and samples used in witnesses -/

/-- A well-behaved physics collaborator: `shoot` always returns a one-point
trajectory and `post_process` always succeeds. -/
def okPhysics : Physics :=
  { shoot := fun _ => Except.ok
      { position := [{ x := 0, y := 0, z := 0 }], velocity := [] },
    post_process := fun _ _ => Except.ok
      { arc := [], alphas := [], betas := [], lifts := [], drags := [],
        moms := [], rolls := [] } }

/-- A collaborator whose `shoot` always fails. -/
def failShootPh : Physics :=
  { shoot := fun _ => Except.error "shoot failed",
    post_process := fun _ _ => Except.ok
      { arc := [], alphas := [], betas := [], lifts := [], drags := [],
        moms := [], rolls := [] } }

/-- A collaborator whose `shoot` succeeds with a one-point trajectory but
whose `post_process` always fails. -/
def failPostPh : Physics :=
  { shoot := fun _ => Except.ok
      { position := [{ x := 0, y := 0, z := 0 }], velocity := [] },
    post_process := fun _ _ => Except.error "post_process failed" }

/-- A collaborator whose `shoot` returns the empty sample. -/
def emptyShootPh : Physics :=
  { shoot := fun _ => Except.ok { position := [], velocity := [] },
    post_process := fun _ _ => Except.ok
      { arc := [], alphas := [], betas := [], lifts := [], drags := [],
        moms := [], rolls := [] } }

/-- A two-point concrete position series used to instantiate theorems. -/
def samplePts : List Point3 :=
  [{ x := 1, y := 2, z := 3 }, { x := 4, y := 5, z := 6 }]

/-! ### Claim theorems -/

/-- Claim C1: for every non-empty trajectory sample, the four summary values
are `drift_left = min(x_new)`, `drift_right = max(x_new)`,
`max_height = max(z)` and `distance = max(y_new)`, where `x_new`/`y_new` is
the axis-remapped series: each field belongs to the corresponding series and
bounds it on the correct side. -/
theorem summary_fields_are_extrema (pos : List Point3) (h : pos ≠ []) :
    ∃ s, flightSummary pos = some s ∧
      s.drift_left ∈ x_new pos ∧ (∀ v ∈ x_new pos, s.drift_left ≤ v) ∧
      s.drift_right ∈ x_new pos ∧ (∀ v ∈ x_new pos, v ≤ s.drift_right) ∧
      s.max_height ∈ z_of pos ∧ (∀ v ∈ z_of pos, v ≤ s.max_height) ∧
      s.distance ∈ y_new pos ∧ (∀ v ∈ y_new pos, v ≤ s.distance) :=
  flightSummary_spec h

/-- Witness for C1 at a concrete two-point sample. -/
theorem summary_fields_are_extrema_witness :
    samplePts ≠ [] ∧
    ∃ s, flightSummary samplePts = some s ∧
      s.drift_left ∈ x_new samplePts ∧
      (∀ v ∈ x_new samplePts, s.drift_left ≤ v) ∧
      s.drift_right ∈ x_new samplePts ∧
      (∀ v ∈ x_new samplePts, v ≤ s.drift_right) ∧
      s.max_height ∈ z_of samplePts ∧
      (∀ v ∈ z_of samplePts, v ≤ s.max_height) ∧
      s.distance ∈ y_new samplePts ∧
      (∀ v ∈ y_new samplePts, v ≤ s.distance) :=
  ⟨by decide, summary_fields_are_extrema samplePts (by decide)⟩

/-- Claim C2: the axis remap sends every sample point `(x, y, z)` to
`(-y, x, z)`, and applying it twice yields `(-x, -y, z)`; the height
coordinate is unchanged. -/
theorem remap_is_rotation (p : Point3) :
    remap p = { x := -p.y, y := p.x, z := p.z } ∧
    remap (remap p) = { x := -p.x, y := -p.y, z := p.z } := by
  constructor <;> simp [remap, Point3.mk.injEq, neg_one_mul]

/-- Claim C3: on every non-empty sample the summary satisfies
`drift_left ≤ drift_right`, with equality exactly when the `x_new` series is
constant. -/
theorem drift_left_le_drift_right (pos : List Point3) (h : pos ≠ []) :
    ∃ s, flightSummary pos = some s ∧ s.drift_left ≤ s.drift_right ∧
      (s.drift_left = s.drift_right ↔
        ∀ v ∈ x_new pos, ∀ w ∈ x_new pos, v = w) := by
  obtain ⟨s, hs, hdlm, hdlb, hdrm, hdrb, -⟩ := flightSummary_spec h
  refine ⟨s, hs, hdlb _ hdrm, ?_, ?_⟩
  · intro he v hv w hw
    have hv1 : v = s.drift_left :=
      le_antisymm (he ▸ hdrb v hv) (hdlb v hv)
    have hw1 : w = s.drift_left :=
      le_antisymm (he ▸ hdrb w hw) (hdlb w hw)
    rw [hv1, hw1]
  · intro hc
    exact hc _ hdlm _ hdrm

/-- Witness for C3 at a concrete two-point sample. -/
theorem drift_left_le_drift_right_witness :
    samplePts ≠ [] ∧
    ∃ s, flightSummary samplePts = some s ∧ s.drift_left ≤ s.drift_right ∧
      (s.drift_left = s.drift_right ↔
        ∀ v ∈ x_new samplePts, ∀ w ∈ x_new samplePts, v = w) :=
  ⟨by decide, drift_left_le_drift_right samplePts (by decide)⟩

/-- Claim C4: `simulate` is deterministic — with the same collaborator, two
invocations on identical in-range parameters produce identical trajectory,
summary and auxiliary data. -/
theorem simulate_deterministic (ph : Physics) (p q : ThrowParameters)
    (_hp : InDeclaredRanges p) (hpq : p = q) :
    simulate ph p = simulate ph q := by
  rw [hpq]

lemma defaultParams_in_ranges : InDeclaredRanges defaultParams := by
  norm_num [InDeclaredRanges, defaultParams, default_U, default_omega,
    default_z0, default_pitch, default_nose, default_roll]

/-- Witness for C4 at the default parameters with a concrete collaborator. -/
theorem simulate_deterministic_witness :
    InDeclaredRanges defaultParams ∧
    simulate okPhysics defaultParams = simulate okPhysics defaultParams :=
  ⟨defaultParams_in_ranges,
   simulate_deterministic okPhysics defaultParams defaultParams
    defaultParams_in_ranges rfl⟩

/-- Claim C5: the six default constants are 24.2, 116.8, 1.3, 15.5, 0.0 and
14.7, and each slider's initial value is the corresponding default. -/
theorem slider_defaults :
    default_U = 24.2 ∧ default_omega = 116.8 ∧ default_z0 = 1.3 ∧
    default_pitch = 15.5 ∧ default_nose = 0.0 ∧ default_roll = 14.7 ∧
    USlider.value = default_U ∧ omegaSlider.value = default_omega ∧
    z0Slider.value = default_z0 ∧ pitchSlider.value = default_pitch ∧
    noseSlider.value = default_nose ∧ rollSlider.value = default_roll :=
  ⟨rfl, rfl, rfl, rfl, rfl, rfl, rfl, rfl, rfl, rfl, rfl, rfl⟩

/-- Claim C6: whatever raw values the user supplies, every collected
parameter lies in its declared closed range. -/
theorem collected_params_in_ranges
    (uNose uRoll uU uOmega uZ0 uPitch : ℚ) (disc : String) :
    InDeclaredRanges (collectParams uNose uRoll uU uOmega uZ0 uPitch disc) :=
  ⟨le_max_left _ _, max_le (by norm_num [USlider]) (min_le_left _ _),
   le_max_left _ _, max_le (by norm_num [omegaSlider]) (min_le_left _ _),
   le_max_left _ _, max_le (by norm_num [z0Slider]) (min_le_left _ _),
   le_max_left _ _, max_le (by norm_num [pitchSlider]) (min_le_left _ _),
   le_max_left _ _, max_le (by norm_num [noseSlider]) (min_le_left _ _),
   le_max_left _ _, max_le (by norm_num [rollSlider]) (min_le_left _ _)⟩

/-- Claim C7: the release position is exactly `(0, 0, z0)` and `shoot` is
invoked with exactly the collected parameters, none altered or substituted;
consequently two collaborators that agree at that exact argument tuple (and
on `post_process`) give identical simulations. -/
theorem shoot_args_exact (p : ThrowParameters) :
    shootArgs p =
      { speed := p.U, omega := p.omega, pitch := p.pitch,
        position := { x := 0, y := 0, z := p.z0 }, nose_angle := p.nose,
        roll_angle := p.roll, disc_name := p.disc_name } ∧
    ∀ ph ph2 : Physics,
      ph.shoot (shootArgs p) = ph2.shoot (shootArgs p) →
      ph.post_process = ph2.post_process →
      simulate ph p = simulate ph2 p := by
  refine ⟨rfl, fun ph ph2 hs hp => ?_⟩
  unfold simulate
  rw [hs, hp]

/-- Witness for C7 at the default parameters. -/
theorem shoot_args_exact_witness :
    simulate failShootPh defaultParams = simulate failShootPh defaultParams :=
  (shoot_args_exact defaultParams).2 failShootPh failShootPh rfl rfl

/-- A physics collaborator that is well behaved on the fixed catalog:
`shoot` succeeds with a non-empty sample for every catalog identifier and
`post_process` always succeeds — the behaviour the spec assumes of the real
collaborator on valid identifiers. -/
def GoodPhysics (ph : Physics) : Prop :=
  (∀ args : ShootArgs, args.disc_name ∈ catalogIds →
    ∃ t, ph.shoot args = Except.ok t ∧ t.position ≠ []) ∧
  (∀ t w, ∃ pp, ph.post_process t w = Except.ok pp)

lemma okPhysics_good : GoodPhysics okPhysics :=
  ⟨fun _ _ => ⟨{ position := [{ x := 0, y := 0, z := 0 }], velocity := [] },
    rfl, List.cons_ne_nil _ _⟩,
   fun _ _ => ⟨{ arc := [], alphas := [], betas := [],
                 lifts := [], drags := [], moms := [], rolls := [] }, rfl⟩⟩

/-- A collaborator whose trajectory depends on the disc identifier: the
single sample point has `x = 1` for disc `dd2` and `x = 2` otherwise. -/
def demoPhysics : Physics :=
  { shoot := fun args => Except.ok
      { position := [{ x := (if args.disc_name = "dd2" then 1 else 2 : ℚ),
                       y := 0, z := 0 }],
        velocity := [] },
    post_process := fun _ _ => Except.ok
      { arc := [], alphas := [], betas := [], lifts := [], drags := [],
        moms := [], rolls := [] } }

/-- Claim C8: the disc selector is the fixed four-entry mapping from display
names to identifiers; with a collaborator that is well behaved on the
catalog, `simulate` succeeds for every catalog identifier; and identical
parameters with two different catalog identifiers are permitted to yield
different summaries. -/
theorem disc_catalog_valid :
    (disc_names = [("Innova Wraith", "dd2"), ("Innova Firebird", "cd1"),
        ("Innova Roadrunner", "cd5"), ("Innova Fairway Driver", "fd2")] ∧
      catalogIds = ["dd2", "cd1", "cd5", "fd2"]) ∧
    (∀ ph : Physics, GoodPhysics ph → ∀ p : ThrowParameters,
      p.disc_name ∈ catalogIds → ∃ r, simulate ph p = Except.ok r) ∧
    (∃ (ph : Physics) (p q : ThrowParameters),
      p.U = q.U ∧ p.omega = q.omega ∧ p.z0 = q.z0 ∧ p.pitch = q.pitch ∧
      p.nose = q.nose ∧ p.roll = q.roll ∧ p.disc_name ≠ q.disc_name ∧
      p.disc_name ∈ catalogIds ∧ q.disc_name ∈ catalogIds ∧
      ∃ r1 r2, simulate ph p = Except.ok r1 ∧ simulate ph q = Except.ok r2 ∧
        r1.2.1 ≠ r2.2.1) := by
  refine ⟨⟨rfl, rfl⟩, ?_, ?_⟩
  · intro ph hg p hmem
    obtain ⟨t, hshoot, hne⟩ := hg.1 (shootArgs p) hmem
    obtain ⟨s, hsum, -⟩ := flightSummary_spec hne
    obtain ⟨pp, hpp⟩ := hg.2 t p.omega
    exact ⟨(t, s, pp), by simp [simulate, hshoot, hsum, hpp]⟩
  · have h1 : simulate demoPhysics defaultParams = Except.ok
        ({ position := [{ x := 1, y := 0, z := 0 }], velocity := [] },
         { drift_left := 0, drift_right := 0, max_height := 0,
           distance := 1 },
         { arc := [], alphas := [], betas := [],
           lifts := [], drags := [], moms := [], rolls := [] }) := by
      simp [simulate, demoPhysics, shootArgs, defaultParams, flightSummary,
        x_new, y_new, z_of, remap, pyMin, pyMax]
    have h2 : simulate demoPhysics
        { defaultParams with disc_name := "cd1" } = Except.ok
        ({ position := [{ x := 2, y := 0, z := 0 }], velocity := [] },
         { drift_left := 0, drift_right := 0, max_height := 0,
           distance := 2 },
         { arc := [], alphas := [], betas := [],
           lifts := [], drags := [], moms := [], rolls := [] }) := by
      simp [simulate, demoPhysics, shootArgs, defaultParams, flightSummary,
        x_new, y_new, z_of, remap, pyMin, pyMax]
    refine ⟨demoPhysics, defaultParams,
      { defaultParams with disc_name := "cd1" },
      rfl, rfl, rfl, rfl, rfl, rfl, by decide, by decide, by decide,
      _, _, h1, h2, ?_⟩
    intro hne
    have : (1 : ℚ) = 2 := congrArg FlightSummary.distance hne
    norm_num at this

/-- Witness for C8: a concrete well-behaved collaborator at the default
parameters, whose disc identifier is in the catalog. -/
theorem disc_catalog_valid_witness :
    GoodPhysics okPhysics ∧ defaultParams.disc_name ∈ catalogIds ∧
    ∃ r, simulate okPhysics defaultParams = Except.ok r :=
  ⟨okPhysics_good, by decide,
   disc_catalog_valid.2.1 okPhysics okPhysics_good defaultParams (by decide)⟩

/-- Claim C9: a failure of the collaborator's `shoot`, or of `post_process`,
propagates out of `simulate` unmodified — the same error value, with no
retry and no substituted default. -/
theorem physics_failures_propagate (ph : Physics) (p : ThrowParameters)
    (e : String) :
    (ph.shoot (shootArgs p) = Except.error e →
      simulate ph p = Except.error e) ∧
    (∀ shot s, ph.shoot (shootArgs p) = Except.ok shot →
      flightSummary shot.position = some s →
      ph.post_process shot p.omega = Except.error e →
      simulate ph p = Except.error e) := by
  constructor
  · intro hs
    simp [simulate, hs]
  · intro shot s hs hsum hpp
    simp [simulate, hs, hsum, hpp]

/-- Witness for C9: a failing `shoot` and a failing `post_process`, each
surfacing its own error value unchanged. -/
theorem physics_failures_propagate_witness :
    simulate failShootPh defaultParams = Except.error "shoot failed" ∧
    simulate failPostPh defaultParams = Except.error "post_process failed" :=
  ⟨(physics_failures_propagate failShootPh defaultParams "shoot failed").1 rfl,
   (physics_failures_propagate failPostPh defaultParams "post_process failed").2
     { position := [{ x := 0, y := 0, z := 0 }], velocity := [] }
     { drift_left := 0, drift_right := 0, max_height := 0, distance := 0 }
     rfl (by simp [flightSummary, x_new, y_new, z_of, remap, pyMin, pyMax])
     rfl⟩

/-- Claim C10: a non-empty sample is a precondition of the summary: on an
empty position series the reduction fails (Python's `min` of an empty
sequence) and `simulate` returns that failure instead of a summary, while on
any non-empty series the summary computation always succeeds. -/
theorem empty_sample_precondition (ph : Physics) (p : ThrowParameters)
    (shot : Traj) (hs : ph.shoot (shootArgs p) = Except.ok shot) :
    (shot.position = [] →
      flightSummary shot.position = none ∧
      simulate ph p = Except.error emptySampleMsg) ∧
    (shot.position ≠ [] → ∃ s, flightSummary shot.position = some s) := by
  constructor
  · intro hpos
    have hnone : flightSummary shot.position = none := by
      rw [hpos]
      rfl
    exact ⟨hnone, by simp [simulate, hs, hnone]⟩
  · intro hne
    obtain ⟨s, hsum, -⟩ := flightSummary_spec hne
    exact ⟨s, hsum⟩

/-- Witness for C10: a collaborator returning the empty sample makes
`simulate` fail with the empty-sequence error. -/
theorem empty_sample_precondition_witness :
    simulate emptyShootPh defaultParams = Except.error emptySampleMsg :=
  ((empty_sample_precondition emptyShootPh defaultParams
    { position := [], velocity := [] } rfl).1 rfl).2

end DiscSim
